import Mathlib

/-!
Shallow embedding of the storymonitor node-monitoring program.

Times and durations are modelled as integers (unix seconds, milliseconds);
the Go code computes integer differences and only converts to float64 when
handing the value to the metrics library, so the sign and magnitude are
preserved by the integer model.  Fallible remote calls (dial, status,
subscribe) are modelled by oracle parameters of type `Option _`: `none`
means the call returned an error, `some h` a success carrying a fresh
client/subscription handle `h`.  Metric emissions are collected in an
explicit `List Obs`.
-/

namespace base

/-- One metrics emission, mirroring the prometheus vocabulary of
base/metrics (part_003): connection-attempt counter, health gauge,
response-time gauge + histogram, last-block gauge (Set / Inc), and the
block-processing-delay gauge + histogram. -/
inductive Obs where
  | connectionAttempt (connectionType : String) (result : String)
  | healthStatus (endpointType : String) (status : Int)
  | responseTimeGauge (endpointType : String) (ms : Int)
  | responseTimeHistogram (endpointType : String) (ms : Int)
  | lastBlockGaugeSet (value : Int)
  | lastBlockGaugeInc
  | delayGaugeSet (value : Int)
  | delayHistogramObserve (value : Int)
  deriving Repr, DecidableEq

/-- BaseChecker from part_003: the label-value fields shared by both
checker implementations. -/
structure BaseChecker where
  ChainName : String
  HostName : String
  ChainId : String
  NodeVersion : String
  ProtocolName : String
  deriving Repr, DecidableEq

/-- RecordConnectionAttempt: increments the RPCConnectionAttempts counter
with result "success" or "fail". -/
def RecordConnectionAttempt (connectionType : String) (success : Bool) : List Obs :=
  let result := if success then "success" else "fail"
  [Obs.connectionAttempt connectionType result]

/-- RecordHealthStatus: sets the NodeHealthStatus gauge to 1 when healthy,
0 otherwise. -/
def RecordHealthStatus (endpointType : String) (healthy : Bool) : List Obs :=
  let status : Int := if healthy then 1 else 0
  [Obs.healthStatus endpointType status]

/-- RecordResponseTime: sets the response-time gauge and observes the
response-time histogram, both in milliseconds. -/
def RecordResponseTime (endpointType : String) (ms : Int) : List Obs :=
  [Obs.responseTimeGauge endpointType ms, Obs.responseTimeHistogram endpointType ms]

/-- RecordBlockProcessingDelay: sets the delay gauge and observes the delay
histogram with the given (signed) delay in seconds. -/
def RecordBlockProcessingDelay (delaySeconds : Int) : List Obs :=
  [Obs.delayGaugeSet delaySeconds, Obs.delayHistogramObserve delaySeconds]

/-- UpdateLastBlockTime from part_003: the code sets the
BlockLastUpdateTime gauge to the constant 0 (`.Set(0)`), not to the block
timestamp. -/
def UpdateLastBlockTime : List Obs :=
  [Obs.lastBlockGaugeSet 0]

/-- HealthCheckOperation from part_003: runs the operation, then records a
health status (healthy iff the operation returned no error) and the
measured wall-clock duration, in that order, regardless of outcome.  The
outcome and measured duration of the operation are oracle parameters. -/
def HealthCheckOperation (endpointType : String) (opErr : Option String)
    (durationMs : Int) : List Obs :=
  RecordHealthStatus endpointType opErr.isNone ++ RecordResponseTime endpointType durationMs

/-- CheckSecondToTicker from part_003, reduced to the period (in seconds)
of the ticker it builds: a non-positive configured value falls back to the
given default. -/
def CheckSecondToTicker (checkSecond defaultSeconds : Int) : Int :=
  if checkSecond ≤ 0 then defaultSeconds else checkSecond

/-- Value semantics of the last-block gauge for one label tuple: `Set v`
replaces the value, `Inc` adds one, every other emission leaves it
unchanged. -/
def lastBlockGaugeApply (v : Int) (o : Obs) : Int :=
  match o with
  | Obs.lastBlockGaugeSet x => x
  | Obs.lastBlockGaugeInc => v + 1
  | _ => v

/-- Fold the last-block gauge over a trace of emissions. -/
def lastBlockGaugeValue (v0 : Int) (trace : List Obs) : Int :=
  trace.foldl lastBlockGaugeApply v0

/-- Recognize a health-status emission. -/
def isHealthObs : Obs → Bool
  | Obs.healthStatus _ _ => true
  | _ => false

/-- Recognize a response-time gauge emission. -/
def isResponseGaugeObs : Obs → Bool
  | Obs.responseTimeGauge _ _ => true
  | _ => false

/-- Recognize a response-time histogram emission. -/
def isResponseHistObs : Obs → Bool
  | Obs.responseTimeHistogram _ _ => true
  | _ => false

/-- Extract the values of the delay-gauge emissions of a trace. -/
def recordedDelayGauges (trace : List Obs) : List Int :=
  trace.filterMap fun o =>
    match o with
    | Obs.delayGaugeSet v => some v
    | _ => none

/-- Extract the values of the delay-histogram emissions of a trace. -/
def recordedDelayHists (trace : List Obs) : List Int :=
  trace.filterMap fun o =>
    match o with
    | Obs.delayHistogramObserve v => some v
    | _ => none

end base

namespace conf

/-- Evm node configuration entry (part_002). -/
structure Evm where
  HostName : String
  ChainName : String
  ProtocolName : String
  ChainId : String
  NodeVersion : String
  HttpURL : String
  WsURL : String
  CheckSecond : Int
  deriving Repr, DecidableEq

/-- Cometbft node configuration entry (part_002). -/
structure Cometbft where
  HostName : String
  ChainName : String
  ProtocolName : String
  ChainId : String
  NodeVersion : String
  HttpURL : String
  WsEndpoint : String
  CheckSecond : Int
  deriving Repr, DecidableEq

end conf

namespace cometbft

/-- Result of a successful CometBFT Status RPC (NodeInfo fields used by
updateClient). -/
structure StatusResult where
  Network : String
  Version : String
  deriving Repr, DecidableEq

/-- CometbftCheckerImpl (part_001): embedded conf, BaseChecker label
fields, and the rpchttp client handle (`none` mirrors a nil client). -/
structure CometbftCheckerState where
  conf : conf.Cometbft
  baseC : base.BaseChecker
  client : Option Nat
  deriving Repr, DecidableEq

/-- Defaults applied by NewCometbftCheckerImpl: CheckSecond 0 becomes 5,
empty WsEndpoint becomes "/websocket". -/
def cometbftApplyDefaults (c : conf.Cometbft) : conf.Cometbft :=
  let c1 := if c.CheckSecond = 0 then { c with CheckSecond := 5 } else c
  if c1.WsEndpoint = "" then { c1 with WsEndpoint := "/websocket" } else c1

/-- Effective period (seconds) of the ticker driving the CometBFT watch
loop: constructor defaults followed by `base.CheckSecondToTicker _ 5`, as
in `subscribe`. -/
def cometbftEffectiveTickerSeconds (c : conf.Cometbft) : Int :=
  base.CheckSecondToTicker (cometbftApplyDefaults c).CheckSecond 5

/-- updateClient from part_001.  `connectResult` is the outcome of
`rpchttp.New` (a fresh handle on success), `statusResult` the outcome of
the immediate `client.Status` probe.  Note the source assigns
`chain.client = client` before the status probe, so a failed probe leaves
the freshly opened client stored. -/
def updateClient (s : CometbftCheckerState) (connectResult : Option Nat)
    (statusResult : Option StatusResult) : CometbftCheckerState × List base.Obs :=
  match connectResult with
  | none => (s, base.RecordConnectionAttempt "http" false)
  | some client =>
    let s := { s with client := some client }
    match statusResult with
    | none => (s, base.RecordConnectionAttempt "http" false)
    | some result =>
      ({ s with
          conf := { s.conf with ChainId := result.Network, NodeVersion := result.Version },
          baseC := { s.baseC with ChainId := result.Network, NodeVersion := result.Version } },
        base.RecordConnectionAttempt "http" true)

/-- NewCometbftCheckerImpl: builds the checker from the configuration,
applies defaults, then calls updateClient once. -/
def NewCometbftCheckerImpl (c : conf.Cometbft) (connectResult : Option Nat)
    (statusResult : Option StatusResult) : CometbftCheckerState × List base.Obs :=
  let c := cometbftApplyDefaults c
  let s : CometbftCheckerState :=
    { conf := c,
      baseC :=
        { ChainName := c.ChainName, HostName := c.HostName, ChainId := c.ChainId,
          NodeVersion := c.NodeVersion, ProtocolName := c.ProtocolName },
      client := none }
  updateClient s connectResult statusResult

/-- startAndSubscribe from part_001, reduced to the event-channel handle
it returns: error (`none`) when the client is nil, when `client.Start`
fails, or when `client.Subscribe` fails. -/
def startAndSubscribe (s : CometbftCheckerState) (startOk : Bool)
    (subscribeResult : Option Nat) : Option Nat :=
  match s.client with
  | none => none
  | some _ => if startOk then subscribeResult else none

/-- Local state of the `subscribe` loop: the checker plus the local
`eventCh` variable (`none` mirrors a nil channel). -/
structure CometbftLoopState where
  checker : CometbftCheckerState
  eventCh : Option Nat
  deriving Repr, DecidableEq

/-- The `ensureSubscription` closure of `subscribe`: reassigns `eventCh`
from startAndSubscribe (nil on error) and reports whether the attempt
succeeded (err == nil). -/
def ensureSubscription (ls : CometbftLoopState) (startOk : Bool)
    (subscribeResult : Option Nat) : CometbftLoopState × Bool :=
  let r := startAndSubscribe ls.checker startOk subscribeResult
  ({ ls with eventCh := r }, r.isSome)

/-- Entry of `subscribe` up to the main for-loop: the initial
ensureSubscription call, whose failure makes `subscribe` return
immediately (`none`); on success the loop is entered with the resulting
state (`some _`). -/
def subscribeEntry (s : CometbftCheckerState) (startOk : Bool)
    (subscribeResult : Option Nat) : Option CometbftLoopState :=
  let ls : CometbftLoopState := { checker := s, eventCh := none }
  let (ls, ok) := ensureSubscription ls startOk subscribeResult
  if ok then some ls else none

/-- Deferred cleanup of `subscribe`: when the client is non-nil it is
released (UnsubscribeAll, OnStop, Stop); the released handles are
reported. -/
def deferredCleanupReleases (s : CometbftCheckerState) : List Nat :=
  match s.client with
  | none => []
  | some c => [c]

/-- Metric emissions of the incoming-block-event arm of the CometBFT
`subscribe` loop: UpdateLastBlockTime, the unclamped delay
`now - header.Time`, then the `checkStatus` health probe. -/
def blockEventObs (blockTime now : Int) (statusErr : Option String)
    (statusDurMs : Int) : List base.Obs :=
  base.UpdateLastBlockTime
    ++ base.RecordBlockProcessingDelay (now - blockTime)
    ++ base.HealthCheckOperation "node_status" statusErr statusDurMs

/-- One select arm of the CometBFT `subscribe` loop together with the
oracle outcomes of the fallible calls it performs. -/
inductive CometbftSelectArm where
  | ctxDone
  | blockEvent (isNewBlockHeader : Bool) (height blockTime now : Int)
      (statusErr : Option String) (statusDurMs : Int)
  | tick (connectResult : Option Nat) (statusResult : Option StatusResult)
      (startOk : Bool) (subscribeResult : Option Nat) (isRunning : Bool)
  deriving Repr

/-- Outcome of one iteration of the CometBFT `subscribe` loop. -/
inductive CometbftStepResult where
  | stopped (releasedOnExit : List Nat)
  | next (ls : CometbftLoopState) (obs : List base.Obs)
  deriving Repr, DecidableEq

/-- Body of the CometBFT `subscribe` for-loop (part_001): cancellation
returns (running the deferred cleanup); a new-block-header event emits the
block metrics and re-probes status; a tick reconnects when the client is
nil, re-subscribes when the client is not running, and otherwise does
nothing. -/
def subscribeStep (ls : CometbftLoopState) (arm : CometbftSelectArm) :
    CometbftStepResult :=
  match arm with
  | CometbftSelectArm.ctxDone =>
    CometbftStepResult.stopped (deferredCleanupReleases ls.checker)
  | CometbftSelectArm.blockEvent isNewBlockHeader _height blockTime now statusErr statusDurMs =>
    if isNewBlockHeader then
      CometbftStepResult.next ls (blockEventObs blockTime now statusErr statusDurMs)
    else
      CometbftStepResult.next ls []
  | CometbftSelectArm.tick connectResult statusResult startOk subscribeResult isRunning =>
    match ls.checker.client with
    | none =>
      let (s, obs) := updateClient ls.checker connectResult statusResult
      let ls := { ls with checker := s }
      let (ls, _) := ensureSubscription ls startOk subscribeResult
      CometbftStepResult.next ls obs
    | some _ =>
      if isRunning then CometbftStepResult.next ls []
      else
        let (ls, _) := ensureSubscription ls startOk subscribeResult
        CometbftStepResult.next ls []

end cometbft

namespace evm

/-- EvmCheckerImpl (part_004): embedded conf, BaseChecker label fields,
and the http / ws ethclient handles (`none` mirrors nil). -/
structure EvmCheckerState where
  conf : conf.Evm
  baseC : base.BaseChecker
  http : Option Nat
  ws : Option Nat
  deriving Repr, DecidableEq

/-- Outcomes of the remote calls performed by one run of the EVM
updateClient: the ws dial, the http dial, and the opportunistic NetworkID
and web3_clientVersion calls on the fresh http client. -/
structure EvmNetOracle where
  wsDial : Option Nat
  httpDial : Option Nat
  networkId : Option String
  clientVersion : Option String
  deriving Repr, DecidableEq

/-- updateClient from part_004.  The ws branch runs only when WsURL is
non-empty; on dial failure it records a failed "ws" attempt and leaves the
old `chain.ws` in place (never closing it on success either — the old
handle is simply overwritten).  The http branch runs only when HttpURL is
non-empty; the source writes `chain.http, err = client.DialContext(...)`,
so on failure `chain.http` is overwritten with nil; on success the chain
id and node version are refreshed opportunistically. -/
def updateClient (s : EvmCheckerState) (o : EvmNetOracle) :
    EvmCheckerState × List base.Obs :=
  let wsStep :=
    if s.conf.WsURL = "" then (s, ([] : List base.Obs))
    else
      match o.wsDial with
      | none => (s, base.RecordConnectionAttempt "ws" false)
      | some h => ({ s with ws := some h }, base.RecordConnectionAttempt "ws" true)
  let s1 := wsStep.1
  let httpStep :=
    if s1.conf.HttpURL = "" then (s1, ([] : List base.Obs))
    else
      match o.httpDial with
      | none => ({ s1 with http := none }, base.RecordConnectionAttempt "http" false)
      | some h =>
        let s2 := { s1 with http := some h }
        let s2 :=
          match o.networkId with
          | some cid =>
            { s2 with
                conf := { s2.conf with ChainId := cid },
                baseC := { s2.baseC with ChainId := cid } }
          | none => s2
        let s2 :=
          match o.clientVersion with
          | some v =>
            { s2 with
                conf := { s2.conf with NodeVersion := v },
                baseC := { s2.baseC with NodeVersion := v } }
          | none => s2
        (s2, base.RecordConnectionAttempt "http" true)
  (httpStep.1, wsStep.2 ++ httpStep.2)

/-- NewEvmCheckerImpl: builds the checker from the configuration, applies
the CheckSecond default, then calls updateClient once. -/
def NewEvmCheckerImpl (c : conf.Evm) (o : EvmNetOracle) :
    EvmCheckerState × List base.Obs :=
  let c := if c.CheckSecond = 0 then { c with CheckSecond := 5 } else c
  let s : EvmCheckerState :=
    { conf := c,
      baseC :=
        { ChainName := c.ChainName, HostName := c.HostName, ChainId := c.ChainId,
          NodeVersion := c.NodeVersion, ProtocolName := c.ProtocolName },
      http := none,
      ws := none }
  updateClient s o

/-- Effective period (seconds) of the tickers driving the EVM watcher
(`subscribe` and `clientHealthCheck` both use
`base.CheckSecondToTicker chain.CheckSecond 5` after the constructor
default). -/
def evmEffectiveTickerSeconds (c : conf.Evm) : Int :=
  base.CheckSecondToTicker (if c.CheckSecond = 0 then 5 else c.CheckSecond) 5

/-- subscribeNewHead from part_004, reduced to the (sub, headers) pair it
returns: when `chain.ws` is nil both are nil; on subscribe error the sub
is nil but the freshly made headers channel is still returned. -/
def subscribeNewHead (s : EvmCheckerState) (subscribeResult : Option Nat)
    (newHeadersCh : Nat) : Option Nat × Option Nat :=
  match s.ws with
  | none => (none, none)
  | some _ =>
    match subscribeResult with
    | none => (none, some newHeadersCh)
    | some sub => (some sub, some newHeadersCh)

/-- Local state of the EVM `subscribe` loop: the checker, the local `sub`
and `headers` variables, and the accounting list of released
(unsubscribed / closed) handles. -/
structure EvmLoopState where
  checker : EvmCheckerState
  sub : Option Nat
  headersCh : Option Nat
  released : List Nat
  deriving Repr, DecidableEq

/-- Oracle outcomes for one run of the `ensureSubscription` closure:
`net1` feeds the updateClient run when `chain.ws` is nil, `wsHealthOk` is
the outcome of the 3-second ChainID health probe, `net2` feeds the
updateClient run after a failed health probe, and `subscribeResult` /
`headersCh` feed subscribeNewHead. -/
structure EvmEnsureOracle where
  net1 : EvmNetOracle
  wsHealthOk : Bool
  net2 : EvmNetOracle
  subscribeResult : Option Nat
  headersCh : Nat
  deriving Repr, DecidableEq

/-- The `ensureSubscription` closure of the EVM `subscribe` (part_004):
reconnect when ws is nil, reconnect again when the ws health probe fails,
then subscribe when a ws client exists and no subscription is active.
None of the branches releases the handles it replaces. -/
def ensureSubscription (ls : EvmLoopState) (o : EvmEnsureOracle) :
    EvmLoopState × List base.Obs :=
  let step1 :=
    if ls.checker.ws.isNone then
      let (chk, obs) := updateClient ls.checker o.net1
      ({ ls with checker := chk }, obs)
    else (ls, ([] : List base.Obs))
  let ls1 := step1.1
  let step2 :=
    if ls1.checker.ws.isSome && !o.wsHealthOk then
      let (chk, obs) := updateClient ls1.checker o.net2
      ({ ls1 with checker := chk }, obs)
    else (ls1, ([] : List base.Obs))
  let ls2 := step2.1
  let ls3 :=
    if ls2.checker.ws.isSome && ls2.sub.isNone then
      let (sub, headers) := subscribeNewHead ls2.checker o.subscribeResult o.headersCh
      { ls2 with sub := sub, headersCh := headers }
    else ls2
  (ls3, step1.2 ++ step2.2)

/-- Entry of the EVM `subscribe` up to the main for-loop: the initial
ensureSubscription call.  Unlike the CometBFT variant the loop is entered
regardless of its outcome. -/
def subscribeEntry (s : EvmCheckerState) (o : EvmEnsureOracle) :
    EvmLoopState × List base.Obs :=
  let ls : EvmLoopState := { checker := s, sub := none, headersCh := none, released := [] }
  ensureSubscription ls o

/-- Block header as delivered by the go-ethereum subscription. -/
structure BlockHeader where
  Number : Int
  Time : Int
  deriving Repr, DecidableEq

/-- Metric emissions of the non-nil-header arm of the EVM `subscribe`
loop when `chain.http` is usable: UpdateLastBlockTime, the unclamped
delay `now - header.Time`, then the checkGetBlockByNumber health probe. -/
def blockEventObs (blockTime now : Int) (blockErr : Option String)
    (blockDurMs : Int) : List base.Obs :=
  base.UpdateLastBlockTime
    ++ base.RecordBlockProcessingDelay (now - blockTime)
    ++ base.HealthCheckOperation "block_retrieval" blockErr blockDurMs

/-- One select arm of the EVM `subscribe` loop together with the oracle
outcomes of the fallible calls it performs. -/
inductive EvmSelectArm where
  | ctxDone
  | header (h : Option BlockHeader) (now : Int) (blockErr : Option String)
      (blockDurMs : Int) (net : EvmNetOracle) (ens : EvmEnsureOracle)
  | tick (ens : EvmEnsureOracle)
  | subErr (errVal : Option String) (chOpen : Bool) (net : EvmNetOracle)
      (ens : EvmEnsureOracle)
  deriving Repr

/-- Outcome of one iteration of the EVM `subscribe` loop.  `panicked`
models a Go nil-pointer panic raised during the iteration, carrying the
emissions made before the panic. -/
inductive EvmStepResult where
  | panicked (obs : List base.Obs)
  | stopped (final : EvmLoopState)
  | next (ls : EvmLoopState) (obs : List base.Obs)
  deriving Repr, DecidableEq

/-- Body of one iteration of the EVM `subscribe` for-loop (part_004).
Entering the select statement evaluates every channel operand, including
`sub.Err()`: when the local `sub` is nil this is a method call on a nil
interface and panics before any arm runs.  The cancellation arm
unsubscribes an active subscription and returns; a nil header and a
subscription error unsubscribe, reconnect and re-subscribe; a non-nil
header emits the block metrics and re-probes via
`chain.http.BlockNumber`, which panics when `chain.http` is nil. -/
def subscribeStep (ls : EvmLoopState) (arm : EvmSelectArm) : EvmStepResult :=
  if ls.sub.isNone then EvmStepResult.panicked []
  else
    match arm with
    | EvmSelectArm.ctxDone =>
      EvmStepResult.stopped
        { ls with released := ls.sub.toList ++ ls.released }
    | EvmSelectArm.header h now blockErr blockDurMs net ens =>
      match h with
      | none =>
        let ls := { ls with sub := none, released := ls.sub.toList ++ ls.released }
        let (chk, obs1) := updateClient ls.checker net
        let (ls2, obs2) := ensureSubscription { ls with checker := chk } ens
        EvmStepResult.next ls2 (obs1 ++ obs2)
      | some hdr =>
        if ls.checker.http.isNone then
          EvmStepResult.panicked
            (base.UpdateLastBlockTime
              ++ base.RecordBlockProcessingDelay (now - hdr.Time))
        else
          EvmStepResult.next ls (blockEventObs hdr.Time now blockErr blockDurMs)
    | EvmSelectArm.tick ens =>
      let (ls2, obs) := ensureSubscription ls ens
      EvmStepResult.next ls2 obs
    | EvmSelectArm.subErr errVal chOpen net ens =>
      if !chOpen || errVal.isSome then
        let ls := { ls with sub := none, released := ls.sub.toList ++ ls.released }
        let (chk, obs1) := updateClient ls.checker net
        let (ls2, obs2) := ensureSubscription { ls with checker := chk } ens
        EvmStepResult.next ls2 (obs1 ++ obs2)
      else EvmStepResult.next ls []

end evm

namespace sched

/-- A constructed checker, one of the two protocol families
(base.CheckerTrait instances held by the Controller). -/
inductive Checker where
  | evmChecker (s : evm.EvmCheckerState)
  | cometbftChecker (s : cometbft.CometbftCheckerState)
  deriving Repr

/-- Checker list built by NewController (sched.go): one EVM checker per
non-nil EVM entry in order, then one CometBFT checker per non-nil
CometBFT entry; nil entries are skipped (with a logged warning) and do
not stop construction.  The oracle functions supply the outcomes of the
remote calls each constructor performs. -/
def NewControllerCheckers (evmConfs : List (Option conf.Evm))
    (cometbftConfs : List (Option conf.Cometbft))
    (evmNet : conf.Evm → evm.EvmNetOracle)
    (cometbftConnect : conf.Cometbft → Option Nat)
    (cometbftStatus : conf.Cometbft → Option cometbft.StatusResult) : List Checker :=
  (evmConfs.filterMap fun oc =>
      oc.map fun c => Checker.evmChecker (evm.NewEvmCheckerImpl c (evmNet c)).1)
    ++ (cometbftConfs.filterMap fun oc =>
      oc.map fun c =>
        Checker.cometbftChecker
          (cometbft.NewCometbftCheckerImpl c (cometbftConnect c) (cometbftStatus c)).1)

/-- Lifecycle state of the Controller: the stopped flag, whether the
shared context has been cancelled, and the number of launched background
tasks. -/
structure ControllerState where
  stopped : Bool
  cancelled : Bool
  tasks : Nat
  deriving Repr, DecidableEq

/-- Controller.Start (sched.go): when already stopped it logs a warning
and launches nothing; otherwise it launches the UpdateBlockLifetime task
plus one task per checker.  The second component is the number of tasks
launched by this call. -/
def Start (numCheckers : Nat) (s : ControllerState) : ControllerState × Nat :=
  if s.stopped then (s, 0)
  else ({ s with tasks := s.tasks + 1 + numCheckers }, 1 + numCheckers)

/-- Controller.Stop (sched.go): when already stopped it logs and returns
unchanged; otherwise it sets the stopped flag and cancels the shared
context (then waits, bounded by 30 seconds, for the tasks). -/
def Stop (s : ControllerState) : ControllerState :=
  if s.stopped then s
  else { s with stopped := true, cancelled := true }

/-- One tick of UpdateBlockLifetime (sched.go), seen from a single
checker (its label tuple): the last-block gauge is incremented by one. -/
def updateBlockLifetimeTick : List base.Obs :=
  [base.Obs.lastBlockGaugeInc]

end sched

/-! Concrete demonstration inputs used by the counterexample and witness
theorems.  They are built through the constructors so that every state they
mention is reachable from a configuration by the embedded code. -/

/-- A well-formed CometBFT configuration entry. -/
def demoCometbftConf : conf.Cometbft :=
  { HostName := "node-1", ChainName := "story", ProtocolName := "cometbft",
    ChainId := "", NodeVersion := "", HttpURL := "http://node:26657",
    WsEndpoint := "", CheckSecond := 0 }

/-- CometBFT checker after a constructor whose connect failed: the client
stays nil. -/
def cometbftDemoState : cometbft.CometbftCheckerState :=
  (cometbft.NewCometbftCheckerImpl demoCometbftConf none none).1

/-- CometBFT checker after a fully successful constructor. -/
def cometbftDemoOkState : cometbft.CometbftCheckerState :=
  (cometbft.NewCometbftCheckerImpl demoCometbftConf (some 0)
    (some { Network := "story-1", Version := "v1" })).1

/-- Watch-loop state after a successful initial subscription on the
successfully constructed checker. -/
def cometbftDemoLoop : cometbft.CometbftLoopState :=
  { checker := cometbftDemoOkState, eventCh := some 1 }

/-- A well-formed EVM configuration entry. -/
def demoEvmConf : conf.Evm :=
  { HostName := "evm-1", ChainName := "story-evm", ProtocolName := "evm",
    ChainId := "", NodeVersion := "", HttpURL := "http://node:8545",
    WsURL := "ws://node:8546", CheckSecond := 0 }

/-- Oracle in which every remote call fails. -/
def evmFailNet : evm.EvmNetOracle :=
  { wsDial := none, httpDial := none, networkId := none, clientVersion := none }

/-- Oracle in which both dials succeed and the opportunistic calls
succeed. -/
def evmOkNet : evm.EvmNetOracle :=
  { wsDial := some 0, httpDial := some 1, networkId := some "1514",
    clientVersion := some "geth" }

/-- Ensure-subscription oracle: healthy ws, subscription handle 10. -/
def evmOkEnsure : evm.EvmEnsureOracle :=
  { net1 := evmFailNet, wsHealthOk := true, net2 := evmFailNet,
    subscribeResult := some 10, headersCh := 20 }

/-- EVM checker after a constructor in which both dials succeeded. -/
def evmDemoChecker : evm.EvmCheckerState :=
  (evm.NewEvmCheckerImpl demoEvmConf evmOkNet).1

/-- EVM loop state after a successful initial subscription. -/
def evmDemoLoop : evm.EvmLoopState :=
  (evm.subscribeEntry evmDemoChecker evmOkEnsure).1

/-- Ensure-subscription oracle for a tick on which the ws health probe
fails and the replacement dials succeed with fresh handles 2 and 3. -/
def evmReconnectEnsure : evm.EvmEnsureOracle :=
  { net1 := evmFailNet, wsHealthOk := false,
    net2 := { wsDial := some 2, httpDial := some 3, networkId := none,
              clientVersion := none },
    subscribeResult := some 11, headersCh := 21 }

/-- EVM checker after a constructor in which every dial failed: both
clients are nil. -/
def evmFailedChecker : evm.EvmCheckerState :=
  (evm.NewEvmCheckerImpl demoEvmConf evmFailNet).1

/-- EVM loop state after the initial ensureSubscription also failed: the
local sub is nil when the first select is entered. -/
def evmFailedLoop : evm.EvmLoopState :=
  (evm.subscribeEntry evmFailedChecker evmOkEnsure).1

/-- EVM checker whose ws dial succeeded but whose http dial failed. -/
def evmNoHttpChecker : evm.EvmCheckerState :=
  (evm.NewEvmCheckerImpl demoEvmConf
    { wsDial := some 0, httpDial := none, networkId := none,
      clientVersion := none }).1

/-- EVM loop state with an active subscription but a nil http client. -/
def evmNoHttpLoop : evm.EvmLoopState :=
  (evm.subscribeEntry evmNoHttpChecker evmOkEnsure).1

/-! Helper lemmas shared by the claim theorems. -/

/-- The filterMap over a list of optional entries keeps exactly the
non-nil ones. -/
theorem length_filterMap_option_map {α β : Type} (f : α → β) (l : List (Option α)) :
    (l.filterMap fun oc => oc.map f).length = l.countP (fun oc => oc.isSome) := by
  induction l with
  | nil => rfl
  | cons hd tl ih => cases hd <;> simp [List.filterMap_cons, List.countP_cons, ih]

/-- Joining k heartbeat ticks yields k gauge increments. -/
theorem replicate_tick_join (k : Nat) :
    (List.replicate k sched.updateBlockLifetimeTick).flatten
      = List.replicate k base.Obs.lastBlockGaugeInc := by
  induction k with
  | zero => rfl
  | succ n ih => simp [List.replicate_succ, ih, sched.updateBlockLifetimeTick]

/-- Folding k gauge increments adds k to the gauge value. -/
theorem gauge_value_replicate_inc (v : Int) (k : Nat) :
    base.lastBlockGaugeValue v (List.replicate k base.Obs.lastBlockGaugeInc) = v + k := by
  induction k generalizing v with
  | zero => simp [base.lastBlockGaugeValue]
  | succ n ih =>
    have h := ih (v + 1)
    simp only [List.replicate_succ, base.lastBlockGaugeValue, List.foldl_cons,
      base.lastBlockGaugeApply] at h ⊢
    rw [h]
    push_cast
    ring

/-- The EVM ensureSubscription closure never touches the released-handle
accounting: no branch of it releases anything. -/
theorem ensureSubscription_released (ls : evm.EvmLoopState) (o : evm.EvmEnsureOracle) :
    (evm.ensureSubscription ls o).1.released = ls.released := by
  unfold evm.ensureSubscription
  cases h1 : (evm.updateClient ls.checker o.net1) with
  | mk chk1 obs1 =>
    dsimp only
    split_ifs <;> simp_all

/-! Claim theorems. -/

/-- C1: the watch loop is claimed to return only on cancellation, retrying
failed connect/subscribe attempts on the next tick forever.  Evaluating
the CometBFT watcher at the failing input instead shows: when the
connect of the constructor fails, the checker records a failed attempt and
keeps a nil client, and `subscribe` then returns immediately from its
initial ensureSubscription failure — the watch loop is never entered and
no retry ever happens, although no cancellation fired. -/
theorem watchLoopExitsOnInitialSubscribeFailure :
    cometbftDemoState.client = none
    ∧ (cometbft.NewCometbftCheckerImpl demoCometbftConf none none).2
        = [base.Obs.connectionAttempt "http" "fail"]
    ∧ cometbft.subscribeEntry cometbftDemoState true (some 0) = none :=
  ⟨rfl, rfl, rfl⟩

/-- C2 counterexample: a block event with block timestamp 10 arriving at
local time 5 makes the watcher record a delay of `-5`, which is negative
and differs from the clamped value `max 0 (5 - 10) = 0`, refuting the
claim that the recorded delay is clamped at ≥ 0. -/
theorem delayObservationNegativeCounterexample :
    cometbft.subscribeStep cometbftDemoLoop
        (cometbft.CometbftSelectArm.blockEvent true 7 10 5 none 1)
      = cometbft.CometbftStepResult.next cometbftDemoLoop (cometbft.blockEventObs 10 5 none 1)
    ∧ base.recordedDelayGauges (cometbft.blockEventObs 10 5 none 1) = [-5]
    ∧ ¬ (0 : Int) ≤ -5
    ∧ (-5 : Int) ≠ max 0 (5 - 10) :=
  ⟨rfl, rfl, by decide, by decide⟩

/-- C2 amended: for every block event with block timestamp T received at
local time N, both watchers record exactly one delay gauge value and one
delay histogram value, each equal to the unclamped difference `N - T`
(negative whenever T > N). -/
theorem delayObservationUnclamped (t now : Int) (e1 e2 : Option String) (d1 d2 : Int) :
    base.recordedDelayGauges (cometbft.blockEventObs t now e1 d1) = [now - t]
    ∧ base.recordedDelayHists (cometbft.blockEventObs t now e1 d1) = [now - t]
    ∧ base.recordedDelayGauges (evm.blockEventObs t now e2 d2) = [now - t]
    ∧ base.recordedDelayHists (evm.blockEventObs t now e2 d2) = [now - t] :=
  ⟨rfl, rfl, rfl, rfl⟩

/-- EVM loop state reached from evmDemoLoop by a tick whose ws health
probe failed: updateClient dialled replacement clients 2 and 3 while the
previous handles 0 and 1 were never released. -/
def evmDemoLoopAfter : evm.EvmLoopState :=
  { checker := { evmDemoChecker with ws := some 2, http := some 3 },
    sub := some 10, headersCh := some 20, released := [] }

/-- Released-handle accounting of a step outcome. -/
def stepReleasedList : evm.EvmStepResult → List Nat
  | evm.EvmStepResult.panicked _ => []
  | evm.EvmStepResult.stopped f => f.released
  | evm.EvmStepResult.next ls _ => ls.released

/-- C3 counterexample: on a periodic tick whose ws health probe fails,
the EVM watcher establishes a replacement ws connection (handle 2,
recording a successful "ws" attempt) while the previously held ws
connection (handle 0) has not been released — the released list is still
empty — refuting the claim that the prior connection/subscription pair is
always released before a replacement is established. -/
theorem connectionReplacedWithoutReleaseCounterexample :
    evm.subscribeStep evmDemoLoop (evm.EvmSelectArm.tick evmReconnectEnsure)
      = evm.EvmStepResult.next evmDemoLoopAfter
          [base.Obs.connectionAttempt "ws" "success",
           base.Obs.connectionAttempt "http" "success"]
    ∧ evmDemoLoop.checker.ws = some 0
    ∧ evmDemoLoopAfter.checker.ws = some 2
    ∧ evmDemoLoopAfter.released = [] :=
  ⟨rfl, rfl, rfl, rfl⟩

/-- C3 amended: subscription handles are released on the paths that do
release — the EVM loop releases its active subscription on the terminal
cancellation path and releases the old subscription before attempting a
replacement on the subscription-error path, and the CometBFT watcher
deferred cleanup releases its connection on every exit of `subscribe` —
but (per the counterexample) prior ws/http connections are overwritten
unreleased by reconnect cycles. -/
theorem subscriptionReleaseDiscipline (ls : evm.EvmLoopState) (h : Nat)
    (ev : Option String) (net : evm.EvmNetOracle) (ens : evm.EvmEnsureOracle)
    (lc : cometbft.CometbftLoopState) (c : Nat)
    (hsub : ls.sub = some h) (hcl : lc.checker.client = some c) :
    evm.subscribeStep ls evm.EvmSelectArm.ctxDone
      = evm.EvmStepResult.stopped { ls with released := h :: ls.released }
    ∧ h ∈ stepReleasedList (evm.subscribeStep ls (evm.EvmSelectArm.subErr ev false net ens))
    ∧ cometbft.subscribeStep lc cometbft.CometbftSelectArm.ctxDone
        = cometbft.CometbftStepResult.stopped [c] := by
  refine ⟨?_, ?_, ?_⟩
  · simp [evm.subscribeStep, hsub]
  · rcases hu : evm.updateClient
        { ls with sub := none, released := ls.sub.toList ++ ls.released }.checker net
      with ⟨chk, obs1⟩
    rcases he : evm.ensureSubscription
        { { ls with sub := none, released := ls.sub.toList ++ ls.released }
            with checker := chk } ens
      with ⟨ls2, obs2⟩
    have hrel := ensureSubscription_released
        { { ls with sub := none, released := ls.sub.toList ++ ls.released }
            with checker := chk } ens
    rw [he] at hrel
    simp [evm.subscribeStep, hsub, hu, he, stepReleasedList, hrel]
    rw [ensureSubscription_released]
    exact List.mem_cons_self _ _
  · simp [cometbft.subscribeStep, cometbft.deferredCleanupReleases, hcl]

/-- C3 witness: the release discipline of the amended claim evaluated at
the concrete demonstration states. -/
theorem subscriptionReleaseDisciplineWitness :
    evmDemoLoop.sub = some 10
    ∧ cometbftDemoLoop.checker.client = some 0
    ∧ (evm.subscribeStep evmDemoLoop evm.EvmSelectArm.ctxDone
        = evm.EvmStepResult.stopped { evmDemoLoop with released := 10 :: evmDemoLoop.released }
      ∧ 10 ∈ stepReleasedList
          (evm.subscribeStep evmDemoLoop (evm.EvmSelectArm.subErr none false evmFailNet evmOkEnsure))
      ∧ cometbft.subscribeStep cometbftDemoLoop cometbft.CometbftSelectArm.ctxDone
          = cometbft.CometbftStepResult.stopped [0]) :=
  ⟨rfl, rfl,
    subscriptionReleaseDiscipline evmDemoLoop 10 none evmFailNet evmOkEnsure
      cometbftDemoLoop 0 rfl rfl⟩

/-- C4 counterexample: connect succeeds (handle 0) but the immediate
status probe fails: a failed connection-attempt observation is recorded
and the cycle aborts, yet the Watcher now holds the newly opened client —
`chain.client` is `some 0`, not nil — refuting "holds no usable client /
the newly opened client is not retained as live state". -/
theorem failedProbeRetainsClientCounterexample :
    (cometbft.updateClient cometbftDemoState (some 0) none).1.client = some 0
    ∧ (cometbft.updateClient cometbftDemoState (some 0) none).1.client ≠ none
    ∧ (cometbft.updateClient cometbftDemoState (some 0) none).2
        = [base.Obs.connectionAttempt "http" "fail"] :=
  ⟨rfl, by decide, rfl⟩

/-- C4 amended: when the synchronous status probe after a successful
connect fails, a failed connection-attempt observation is recorded and
the cycle aborts (no identity refresh, no success observation), but the
newly opened client is retained in `chain.client`; the Watcher does not
return to a client-less Disconnected state. -/
theorem failedProbeAbortsCycleKeepingClient (s : cometbft.CometbftCheckerState) (h : Nat) :
    cometbft.updateClient s (some h) none
      = ({ s with client := some h }, base.RecordConnectionAttempt "http" false) :=
  rfl

/-- C5: Supervisor construction builds exactly one checker per non-nil
configuration entry across both protocol families — for N non-nil EVM and
M non-nil CometBFT entries exactly N+M checkers; nil entries are skipped
and do not affect the others. -/
theorem controllerBuildsOneCheckerPerWellFormedEntry
    (evmConfs : List (Option conf.Evm)) (cometbftConfs : List (Option conf.Cometbft))
    (evmNet : conf.Evm → evm.EvmNetOracle)
    (cometbftConnect : conf.Cometbft → Option Nat)
    (cometbftStatus : conf.Cometbft → Option cometbft.StatusResult) :
    (sched.NewControllerCheckers evmConfs cometbftConfs evmNet cometbftConnect
      cometbftStatus).length
      = evmConfs.countP (fun oc => oc.isSome)
        + cometbftConfs.countP (fun oc => oc.isSome) := by
  simp [sched.NewControllerCheckers, length_filterMap_option_map]

/-- C6: calling Stop twice, or Start after Stop, leaves the fleet in the
stopped state: the second Stop is a no-op that leaves the stopped flag
true, and Start after Stop is a no-op launching zero tasks. -/
theorem stopStartIdempotent (s : sched.ControllerState) (n : Nat) :
    sched.Stop (sched.Stop s) = sched.Stop s
    ∧ (sched.Stop s).stopped = true
    ∧ sched.Start n (sched.Stop s) = (sched.Stop s, 0) := by
  by_cases h : s.stopped <;> simp [sched.Stop, sched.Start, h]

/-- C7: for every configured check interval, the effective period driving
the periodic ticker of a Watcher is positive; it is 5 seconds when the
configured value is non-positive (including check_second = 0) and the
configured number of seconds otherwise, for both protocol families. -/
theorem effectiveCheckIntervalPositive (c : conf.Cometbft) (e : conf.Evm) :
    (0 < cometbft.cometbftEffectiveTickerSeconds c
      ∧ cometbft.cometbftEffectiveTickerSeconds c
          = if c.CheckSecond ≤ 0 then 5 else c.CheckSecond)
    ∧ (0 < evm.evmEffectiveTickerSeconds e
      ∧ evm.evmEffectiveTickerSeconds e
          = if e.CheckSecond ≤ 0 then 5 else e.CheckSecond) := by
  have hproj : (cometbft.cometbftApplyDefaults c).CheckSecond
      = if c.CheckSecond = 0 then 5 else c.CheckSecond := by
    unfold cometbft.cometbftApplyDefaults
    by_cases h0 : c.CheckSecond = 0 <;>
      by_cases h1 :
        (if c.CheckSecond = 0 then { c with CheckSecond := 5 } else c).WsEndpoint = "" <;>
      simp_all
  unfold cometbft.cometbftEffectiveTickerSeconds evm.evmEffectiveTickerSeconds
    base.CheckSecondToTicker
  rw [hproj]
  constructor
  · constructor <;> (split_ifs <;> omega)
  · constructor <;> (split_ifs <;> omega)

/-- C8: every invocation of the health-probe operation, whatever the
outcome of the underlying request, records exactly one boolean health
observation — healthy (status 1) iff the operation returned no error —
and the measured duration to both the response-time gauge and the
response-time histogram, also on failure. -/
theorem healthCheckRecordsHealthAndDuration (endpointType : String)
    (opErr : Option String) (d : Int) :
    base.HealthCheckOperation endpointType opErr d
      = [base.Obs.healthStatus endpointType (if opErr.isNone then 1 else 0),
         base.Obs.responseTimeGauge endpointType d,
         base.Obs.responseTimeHistogram endpointType d]
    ∧ (base.HealthCheckOperation endpointType opErr d).countP base.isHealthObs = 1
    ∧ (base.HealthCheckOperation endpointType opErr d).countP base.isResponseGaugeObs = 1
    ∧ (base.HealthCheckOperation endpointType opErr d).countP base.isResponseHistObs = 1 := by
  cases opErr <;>
    simp [base.HealthCheckOperation, base.RecordHealthStatus, base.RecordResponseTime,
      base.isHealthObs, base.isResponseGaugeObs, base.isResponseHistObs, List.countP_cons]

/-- C9 counterexample: a block event whose header carries timestamp 100
leaves the last-block-timestamp gauge at 0, not at 100:
UpdateLastBlockTime performs `.Set(0)`, so the gauge value is not the
timestamp of the last processed block. -/
theorem lastBlockGaugeNotTimestampCounterexample :
    base.UpdateLastBlockTime = [base.Obs.lastBlockGaugeSet 0]
    ∧ base.lastBlockGaugeValue 42 (cometbft.blockEventObs 100 103 none 1) = 0
    ∧ (0 : Int) ≠ 100 :=
  ⟨rfl, rfl, by decide⟩

/-- C9 amended: on every block event the last-block-timestamp gauge is
reset to 0, and each supervisor UpdateBlockLifetime tick increments it by
one; after a block event followed by k heartbeat ticks its value is k —
the gauge holds the heartbeat-seconds elapsed since the last processed
block, not the block timestamp. -/
theorem lastBlockGaugeMeasuresBlockAge (v0 : Int) (k : Nat) (t now : Int)
    (e1 : Option String) (d1 : Int) (e2 : Option String) (d2 : Int) :
    base.lastBlockGaugeValue v0
        (cometbft.blockEventObs t now e1 d1
          ++ (List.replicate k sched.updateBlockLifetimeTick).flatten) = k
    ∧ base.lastBlockGaugeValue v0
        (evm.blockEventObs t now e2 d2
          ++ (List.replicate k sched.updateBlockLifetimeTick).flatten) = k := by
  have hc : base.lastBlockGaugeValue v0 (cometbft.blockEventObs t now e1 d1) = 0 := rfl
  have he : base.lastBlockGaugeValue v0 (evm.blockEventObs t now e2 d2) = 0 := rfl
  constructor <;>
    · rw [replicate_tick_join]
      unfold base.lastBlockGaugeValue at *
      rw [List.foldl_append]
      first
        | rw [hc]
        | rw [he]
      have := gauge_value_replicate_inc 0 k
      unfold base.lastBlockGaugeValue at this
      rw [this]
      omega

/-- C10: the EVM fan-in loop body is claimed total on nil handles; the
code instead panics.  First conjunct set: after a constructor and initial
ensureSubscription in which the ws dial failed, the local sub is nil and
entering the select (which evaluates `sub.Err()`) panics whatever arm
would have fired.  Second conjunct set: with an active subscription but a
nil http client (http dial failed), a block event panics inside
`checkGetBlockByNumber` (`chain.http.BlockNumber`) after emitting the
last-block and delay observations. -/
theorem evmSelectNilSubscriptionPanics :
    evmFailedLoop.sub = none
    ∧ evm.subscribeStep evmFailedLoop (evm.EvmSelectArm.tick evmOkEnsure)
        = evm.EvmStepResult.panicked []
    ∧ evm.subscribeStep evmFailedLoop evm.EvmSelectArm.ctxDone
        = evm.EvmStepResult.panicked []
    ∧ evmNoHttpLoop.checker.http = none
    ∧ evmNoHttpLoop.sub = some 10
    ∧ evm.subscribeStep evmNoHttpLoop
        (evm.EvmSelectArm.header (some { Number := 5, Time := 100 }) 103 none 1
          evmFailNet evmOkEnsure)
        = evm.EvmStepResult.panicked
            [base.Obs.lastBlockGaugeSet 0, base.Obs.delayGaugeSet 3,
             base.Obs.delayHistogramObserve 3] :=
  ⟨rfl, rfl, rfl, rfl, rfl, rfl⟩
